import Mathlib

/-!
# Verification of the doris-mcp-server security-and-execution pipeline

This file gives a shallow embedding of the policy-enforcement core of the
repository: the security-level lattice, the authentication and authorization
engines, the SQL security validator, the data-masking engine, and the
session cache.  The repository ships only the test suite for these
components (`test/security/*.py`, `test/utils/test_db.py`); the module that
implements them (`doris_mcp_server/utils/security.py` and
`doris_mcp_server/utils/db.py`) is not part of the checked-in sources, so
every definition below is modelled from the specification's description of
the component, constrained by the behaviour the test suite demands.
-/

namespace DorisMcp

/-! ## Security level lattice

Modelled from the spec: `SecurityLevel` is an enum with ordinal
`PUBLIC=0, INTERNAL=1, CONFIDENTIAL=2, SECRET=3`; comparisons use the
ordinal. -/

inductive SecurityLevel where
  | public
  | internal
  | confidential
  | secret
deriving DecidableEq, Repr

/-- The ordinal of a security level; the total order on levels compares
ordinals. -/
def SecurityLevel.ordinal : SecurityLevel → Nat
  | .public => 0
  | .internal => 1
  | .confidential => 2
  | .secret => 3

/-! ## AuthContext -/

/-- Modelled from the spec: the authenticated identity and clearance
attached to a request (`user_id, roles, permissions, session_id,
security_level`). -/
structure AuthContext where
  user_id : String
  roles : List String
  permissions : List String
  session_id : String
  security_level : SecurityLevel
deriving DecidableEq, Repr

/-- Modelled from the spec: the literal permission value `"admin"` or role
`"data_admin"` marks a caller as an unconditional override. -/
def hasAdminOverride (ctx : AuthContext) : Bool :=
  decide ("data_admin" ∈ ctx.roles) || decide ("admin" ∈ ctx.permissions)

/-! ## Configuration -/

/-- Modelled from the spec: the configuration source provides the blocked
keywords and the sensitive-resource-to-level map (`SensitiveResourceMap`;
unmapped resources default to `PUBLIC`). -/
structure SecurityConfig where
  blockedKeywords : List String
  sensitiveTables : List (String × SecurityLevel)
deriving DecidableEq, Repr

/-- Level lookup in the sensitive-resource map. -/
def lookupLevel : List (String × SecurityLevel) → String → Option SecurityLevel
  | [], _ => none
  | e :: es, n => if e.1 = n then some e.2 else lookupLevel es n

/-- The default configuration used by the test suite: the default blocklist
`DROP, DELETE, TRUNCATE, ALTER, CREATE, INSERT, UPDATE` and the sensitive
tables the tests probe (`user_info` is CONFIDENTIAL, `payment_records` is
SECRET, `sensitive_data` is CONFIDENTIAL). -/
def defaultSecurityConfig : SecurityConfig :=
  { blockedKeywords := ["DROP", "DELETE", "TRUNCATE", "ALTER", "CREATE", "INSERT", "UPDATE"],
    sensitiveTables :=
      [("user_info", SecurityLevel.confidential),
       ("payment_records", SecurityLevel.secret),
       ("sensitive_data", SecurityLevel.confidential)] }

/-! ## Authorization engine

Modelled from the spec: `check_permission(ctx, resource_uri, action)`
parses the URI `/api/{type}/{name}[/{schema}]`, looks the resource name up
in the sensitive-resource map (default PUBLIC) and decides in order:
(1) admin override allows unconditionally; (2) a caller whose clearance
ordinal is below the resource level ordinal is denied; (3) role-based
rules: permission `read_data` grants `read`, `write` and unknown actions
are denied by default. -/

structure ResourceInfo where
  rtype : String
  rname : String
  rschema : String
deriving DecidableEq, Repr

/-- Split a character list on a separator character. -/
def splitOnChar (sep : Char) : List Char → List (List Char)
  | [] => [[]]
  | c :: cs =>
    let r := splitOnChar sep cs
    if c = sep then [] :: r
    else
      match r with
      | [] => [[c]]
      | h :: t => (c :: h) :: t

/-- Modelled from the spec: `parse_resource_uri` splits a path of the shape
`/api/{type}/{name}[/{schema}]` into `{type, name, schema}` and fails
gracefully (empty/default fields) on malformed input. -/
def parseResourceUri (uri : String) : ResourceInfo :=
  match (splitOnChar '/' uri.data).filter (fun p => ¬ p.isEmpty) with
  | _ :: ty :: nm :: sc :: _ => ⟨String.mk ty, String.mk nm, String.mk sc⟩
  | [_, ty, nm] => ⟨String.mk ty, String.mk nm, ""⟩
  | [_, ty] => ⟨String.mk ty, "", ""⟩
  | _ => ⟨"", "", ""⟩

/-- Modelled from the spec: the resource's security level is looked up by
name in the sensitive-resource map; unmapped resources default to
`PUBLIC`. -/
def resourceSecurityLevel (cfg : SecurityConfig) (info : ResourceInfo) : SecurityLevel :=
  (lookupLevel cfg.sensitiveTables info.rname).getD SecurityLevel.public

/-- Modelled from the spec: the authorization decision procedure
(admin override, then clearance dominance, then role-based action
rules with deny-by-default). -/
def check_permission (cfg : SecurityConfig) (ctx : AuthContext)
    (uri : String) (action : String) : Bool :=
  if hasAdminOverride ctx = true then true
  else
    if ctx.security_level.ordinal < (resourceSecurityLevel cfg (parseResourceUri uri)).ordinal then
      false
    else if action = "read" then decide ("read_data" ∈ ctx.permissions)
    else false

/-- The analyst context used throughout the test suite. -/
def analystCtx : AuthContext :=
  ⟨"analyst1", ["data_analyst"], ["read_data"], "session_123", SecurityLevel.internal⟩

/-- The admin context used throughout the test suite. -/
def adminCtx : AuthContext :=
  ⟨"admin1", ["data_admin"], ["admin"], "session_456", SecurityLevel.secret⟩

/-! ## Data masking engine

Modelled from the spec (§4.4): `process(rows, ctx)` walks every field of
every row; a configured rule whose column pattern matches the field name
replaces a non-null value with the masking algorithm's output, unless
`_should_apply_rule(rule, ctx)` declines (admin override, or the caller's
clearance is strictly above the rule's ceiling). -/

/-- Character classification used by the lexical helpers. -/
def isAlphaChar (c : Char) : Bool :=
  (decide ('A' ≤ c) && decide (c ≤ 'Z')) || (decide ('a' ≤ c) && decide (c ≤ 'z'))

def isDigitChar (c : Char) : Bool :=
  decide ('0' ≤ c) && decide (c ≤ '9')

def isWordChar (c : Char) : Bool :=
  isAlphaChar c || isDigitChar c || decide (c = '_')

def isSpaceChar (c : Char) : Bool :=
  decide (c = ' ') || decide (c = '\t') || decide (c = '\n') || decide (c = '\r')

/-- Uppercase an ASCII letter, leave anything else alone. -/
def upChar (c : Char) : Char :=
  if 'a' ≤ c ∧ c ≤ 'z' then Char.ofNat (c.toNat - 32) else c

/-- Lowercase an ASCII letter, leave anything else alone. -/
def lowChar (c : Char) : Char :=
  if 'A' ≤ c ∧ c ≤ 'Z' then Char.ofNat (c.toNat + 32) else c

def upStr (s : String) : String := String.mk (s.data.map upChar)

def lowStr (s : String) : String := String.mk (s.data.map lowChar)

/-- Does `p` start the list `l`? -/
def startsWithChars : List Char → List Char → Bool
  | [], _ => true
  | _ :: _, [] => false
  | p :: ps, c :: cs => decide (p = c) && startsWithChars ps cs

/-- Is `p` a contiguous substring of `l`? -/
def isSubstring (p : List Char) : List Char → Bool
  | [] => p.isEmpty
  | c :: cs => startsWithChars p (c :: cs) || isSubstring p cs

/-- Modelled from the spec: the masking algorithm enum
`{phone, email, id_card, name, partial}` (here `partialSpan` names the
spec's `partial` algorithm). -/
inductive MaskAlgorithm where
  | phone
  | email
  | id_card
  | name
  | partialSpan
deriving DecidableEq, Repr

/-- Modelled from the spec: the parameter bag of a masking rule
(`mask_char`, `keep_prefix`/`keep_suffix` — here `keepStart`/`keepEnd` —
and the partial-mask ratio, represented as an exact percentage). -/
structure MaskParams where
  maskChar : Char
  keepStart : Nat
  keepEnd : Nat
  maskRatioPct : Nat
deriving DecidableEq, Repr

/-- Modelled from the spec: a masking rule binds a column pattern to an
algorithm, a parameter bag, and a clearance ceiling. -/
structure MaskingRule where
  column_pattern : String
  algorithm : MaskAlgorithm
  parameters : MaskParams
  security_level : SecurityLevel
deriving DecidableEq, Repr

/-- Modelled from the spec: keep the first `keepS` and last `keepE`
characters and replace every character strictly between them with `mc`;
when the value is too short there is no negative-length middle section and
the value is returned unchanged. -/
def maskSpan (cs : List Char) (keepS keepE : Nat) (mc : Char) : List Char :=
  if cs.length ≤ keepS + keepE then cs
  else
    cs.take keepS ++ List.replicate (cs.length - keepS - keepE) mc
      ++ cs.drop (cs.length - keepE)

/-- Modelled from the spec: `email_mask` splits on `@`, masks the local
part keeping its first and last character, and leaves the domain
untouched; a 1-2 character local part is masked minimally. -/
def maskEmail (cs : List Char) (mc : Char) : List Char :=
  maskSpan (cs.takeWhile (fun c => c ≠ '@')) 1 1 mc ++ cs.dropWhile (fun c => c ≠ '@')

/-- Modelled from the spec: `name_mask` keeps the first character and
masks the second for 2-character names, keeps first and last and masks the
middle for length ≥ 3, and leaves shorter values unchanged (the spec
leaves 1-character names to the implementation). -/
def maskName (cs : List Char) (mc : Char) : List Char :=
  match cs with
  | [] => []
  | [a] => [a]
  | [a, _] => [a, mc]
  | a :: b :: c :: rest => maskSpan (a :: b :: c :: rest) 1 1 mc

/-- Modelled from the spec: `partial_mask` masks a centered contiguous
middle span of `round(len * ratio)` characters (the ratio is carried as a
percentage), preserving total length. -/
def maskPartialSpan (cs : List Char) (mc : Char) (pct : Nat) : List Char :=
  let n := cs.length
  let m := min n ((n * pct + 50) / 100)
  let left := (n - m) / 2
  cs.take left ++ List.replicate m mc ++ cs.drop (left + m)

/-- Dispatch a masking algorithm on a string value. -/
def applyAlgorithm (alg : MaskAlgorithm) (p : MaskParams) (s : String) : String :=
  match alg with
  | .phone => String.mk (maskSpan s.data p.keepStart p.keepEnd p.maskChar)
  | .id_card => String.mk (maskSpan s.data p.keepStart p.keepEnd p.maskChar)
  | .email => String.mk (maskEmail s.data p.maskChar)
  | .name => String.mk (maskName s.data p.maskChar)
  | .partialSpan => String.mk (maskPartialSpan s.data p.maskChar p.maskRatioPct)

/-- A field value in a result row: null, a string, or a number.  Masking
applies to string values; nulls pass through unchanged. -/
inductive FieldValue where
  | null
  | str (s : String)
  | num (n : Int)
deriving DecidableEq, Repr

/-- A result row is a list of named fields. -/
abbrev Row := List (String × FieldValue)

/-- Modelled from the spec: `_should_apply_rule(rule, ctx)` is false
unconditionally for the admin override, and otherwise true iff the
caller's clearance ordinal is at or below the rule's ceiling ordinal. -/
def shouldApplyRule (rule : MaskingRule) (ctx : AuthContext) : Bool :=
  if hasAdminOverride ctx = true then false
  else decide (ctx.security_level.ordinal ≤ rule.security_level.ordinal)

/-- Modelled from the spec: `column_pattern` is a regex matched
case-insensitively against the field name; the configured rules all use
patterns of the shape `.*key.*`, so the model matches the pattern's
literal word core as a case-insensitive substring of the field name. -/
def patternMatches (pat field : String) : Bool :=
  isSubstring ((pat.data.filter isWordChar).map lowChar) (field.data.map lowChar)

/-- Apply a single rule to a single field value (nulls and numbers pass
through; strings are replaced by the algorithm output when the pattern
matches and the rule applies to the caller). -/
def applyOne (rule : MaskingRule) (ctx : AuthContext) (field : String)
    (v : FieldValue) : FieldValue :=
  match v with
  | .null => .null
  | .num n => .num n
  | .str s =>
    if patternMatches rule.column_pattern field = true ∧ shouldApplyRule rule ctx = true then
      .str (applyAlgorithm rule.algorithm rule.parameters s)
    else .str s

/-- Fold the whole rule set over one field. -/
def applyRulesToField (rules : List MaskingRule) (ctx : AuthContext)
    (field : String) (v : FieldValue) : FieldValue :=
  rules.foldl (fun acc rule => applyOne rule ctx field acc) v

/-- Modelled from the spec: `process(rows, ctx)` returns a new list of
rows with every field run through the configured rule set. -/
def process (rules : List MaskingRule) (ctx : AuthContext) (rows : List Row) : List Row :=
  rows.map (fun row => row.map (fun kv => (kv.1, applyRulesToField rules ctx kv.1 kv.2)))

/-! ## SQL security validator

Modelled from the spec (§4.3): `validate(sql, ctx)` lexically scans the
statement for blocked statement-starting keywords, injection shapes
(stacked statements, `UNION [ALL] SELECT`, always-true tautologies,
comment markers) and access to sensitive tables, and aggregates the
findings into a `ValidationResult`; it never raises on malformed input. -/

/-- Modelled from the spec: the per-call validation outcome
`{is_valid, error_message, blocked_operations, risk_level}` with
`risk_level` one of `none, low, medium, high` (carried as its string
value). -/
structure ValidationResult where
  is_valid : Bool
  error_message : Option String
  blocked_operations : List String
  risk_level : String
deriving DecidableEq, Repr

theorem length_dropWhile_le (p : α → Bool) (l : List α) :
    (l.dropWhile p).length ≤ l.length := by
  induction l with
  | nil => simp [List.dropWhile]
  | cons c cs ih =>
    by_cases h : p c
    · simpa [List.dropWhile, h] using Nat.le_succ_of_le ih
    · simp [List.dropWhile, h]

/-- Fuel-driven worker for `sqlTokens`; the fuel is an upper bound on the
number of characters left, so structural recursion on it computes the same
token stream as direct recursion on the character list. -/
def sqlTokensAux : Nat → List Char → List String
  | 0, _ => []
  | _ + 1, [] => []
  | fuel + 1, c :: cs =>
    if isWordChar c then
      String.mk (c :: cs.takeWhile isWordChar) :: sqlTokensAux fuel (cs.dropWhile isWordChar)
    else if c = '=' then "=" :: sqlTokensAux fuel cs
    else sqlTokensAux fuel cs

/-- Lexical tokenization: maximal word-character runs become tokens
(`=` is kept as its own token, everything else is a separator). -/
def sqlTokens (cs : List Char) : List String :=
  sqlTokensAux cs.length cs

/-- The uppercase leading command keyword of one statement: skip
non-letters, take the first letter run. -/
def leadKeyword (cs : List Char) : String :=
  String.mk (((cs.dropWhile (fun c => !(isAlphaChar c))).takeWhile isAlphaChar).map upChar)

/-- Modelled from the spec: the statement-starting keywords of the input,
accounting for multi-statement input by splitting on `;`. -/
def statementKeywords (cs : List Char) : List String :=
  ((splitOnChar ';' cs).map leadKeyword).filter (fun k => ¬ k.isEmpty)

/-- The blocked operations found in the input: every statement-starting
keyword that case-insensitively matches the configured blocklist. -/
def blockedOps (cfg : SecurityConfig) (cs : List Char) : List String :=
  (statementKeywords cs).filter (fun k => decide (k ∈ cfg.blockedKeywords))

/-- Modelled from the spec: stacked statements — a `;` followed by further
non-whitespace SQL. -/
def hasStackedStatement : List Char → Bool
  | [] => false
  | c :: cs =>
    (decide (c = ';') && cs.any (fun d => !(isSpaceChar d))) || hasStackedStatement cs

/-- Modelled from the spec: a `UNION [ALL] SELECT` combination, detected
on the uppercased token stream. -/
def hasUnionSelect : List String → Bool
  | [] => false
  | t :: rest =>
    (if t = "UNION" then
      match rest with
      | "SELECT" :: _ => true
      | "ALL" :: "SELECT" :: _ => true
      | _ => false
    else false) || hasUnionSelect rest

/-- Modelled from the spec: an always-true boolean tautology such as
`OR 1=1`, detected as `OR tok = tok` on the uppercased token stream. -/
def hasTautology : List String → Bool
  | [] => false
  | t :: rest =>
    (if t = "OR" then
      match rest with
      | a :: "=" :: b :: _ => decide (a = b)
      | _ => false
    else false) || hasTautology rest

/-- Does a comment marker (`--`, `#` or `/*`) start at this position? -/
def startsComment : List Char → Bool
  | '-' :: '-' :: _ => true
  | '#' :: _ => true
  | '/' :: '*' :: _ => true
  | _ => false

/-- Modelled from the spec: line-comment markers (`--`, `#`) or block
comments appearing in the statement. -/
def hasCommentMarker : List Char → Bool
  | [] => false
  | c :: cs => startsComment (c :: cs) || hasCommentMarker cs

/-- Any of the injection shapes that the spec labels "injection"
(stacked statements, UNION SELECT, tautology). -/
def injectionFound (cs : List Char) : Bool :=
  hasStackedStatement cs
    || hasUnionSelect ((sqlTokens cs).map upStr)
    || hasTautology ((sqlTokens cs).map upStr)

/-- Modelled from the spec: the table identifiers referenced in
`FROM`/`JOIN` clauses, extracted from the token stream (lowercased for
lookup). -/
def tablesOf : List String → List String
  | [] => []
  | t :: rest =>
    (if upStr t = "FROM" ∨ upStr t = "JOIN" then
      match rest with
      | r :: _ => [lowStr r]
      | [] => []
    else []) ++ tablesOf rest

/-- Modelled from the spec: referenced sensitive tables whose level the
caller's clearance does not dominate (the admin override clears all
tables). -/
def accessViolations (cfg : SecurityConfig) (ctx : AuthContext) (cs : List Char) :
    List String :=
  if hasAdminOverride ctx = true then []
  else
    (tablesOf (sqlTokens cs)).filter (fun t =>
      match lookupLevel cfg.sensitiveTables t with
      | some lvl => decide (ctx.security_level.ordinal < lvl.ordinal)
      | none => false)

/-- Comma-join a keyword list into characters for the error message. -/
def joinStrs : List String → List Char
  | [] => []
  | [s] => s.data
  | s :: rest => s.data ++ ", ".data ++ joinStrs rest

/-- The aggregated error message: each failed check contributes its own
fragment, so the message names every rejection reason found. -/
def msgChars (cfg : SecurityConfig) (ctx : AuthContext) (cs : List Char) : List Char :=
  (if blockedOps cfg cs = [] then []
   else "blocked operations".data ++ (": ".data ++ joinStrs (blockedOps cfg cs) ++ "; ".data))
    ++ (if injectionFound cs = true then "injection".data ++ " pattern detected; ".data else [])
    ++ (if hasCommentMarker cs = true then "comment".data ++ " marker detected; ".data else [])
    ++ (if accessViolations cfg ctx cs = [] then []
        else "access".data ++ " denied for sensitive table".data)

/-- The risk level of a rejected statement: stacked statements are high
risk; other injection shapes and comment markers are medium; pure
blocklist or table-access rejections are high. -/
def computedRisk (cs : List Char) : String :=
  if hasStackedStatement cs = true then "high"
  else if (hasUnionSelect ((sqlTokens cs).map upStr)
      || hasTautology ((sqlTokens cs).map upStr)
      || hasCommentMarker cs) = true then "medium"
  else "high"

/-- Modelled from the spec: `validate(sql, ctx)` — all checks are
cumulative; a statement passing every check returns
`is_valid=true, error_message=null, risk_level=none`, and any failure
returns `is_valid=false` with the aggregated message, the blocked
operations found, and the computed risk level. -/
def validate (cfg : SecurityConfig) (sql : String) (ctx : AuthContext) : ValidationResult :=
  if blockedOps cfg sql.data = [] ∧ injectionFound sql.data = false
      ∧ hasCommentMarker sql.data = false ∧ accessViolations cfg ctx sql.data = [] then
    ⟨true, none, [], "none"⟩
  else
    ⟨false, some (String.mk (msgChars cfg ctx sql.data)), blockedOps cfg sql.data,
      computedRisk sql.data⟩

/-- Does the validation result's error message mention the given text? -/
def resultMentions (r : ValidationResult) (pat : String) : Bool :=
  match r.error_message with
  | none => false
  | some m => isSubstring pat.data m.data

/-- Parenthesis balance check, the model of the internal SQL parser's
well-formedness demand: the parser step fails on unbalanced
parentheses. -/
def parensBalanced (cs : List Char) : Bool :=
  go cs 0
where
  go : List Char → Nat → Bool
    | [], depth => decide (depth = 0)
    | c :: cs, depth =>
      if c = '(' then go cs (depth + 1)
      else if c = ')' then
        match depth with
        | 0 => false
        | d + 1 => go cs d
      else go cs depth

/-- The internal tokenizer with its failure mode made explicit: it throws
(returns `Except.error`) on input its parser cannot handle. -/
def tokenizeE (cs : List Char) : Except String (List String) :=
  if parensBalanced cs = true then Except.ok (sqlTokens cs)
  else Except.error "sql parse failure: unbalanced parentheses"

/-- Modelled from the spec: the validator boundary catches every internal
parse failure and converts it to a `ValidationResult` (graceful
degradation via the lexical scan) instead of letting it propagate. -/
def validateE (cfg : SecurityConfig) (sql : String) (ctx : AuthContext) :
    Except String ValidationResult :=
  match tokenizeE sql.data with
  | Except.ok _ => Except.ok (validate cfg sql ctx)
  | Except.error _ => Except.ok (validate cfg sql ctx)

/-! ## Authentication engine

Modelled from the spec (§4.1): `authenticate(credentials)` supports the
`token` and `basic` credential types; any other type fails immediately as
unsupported; a token is looked up against the Token Manager's store or a
static token table; a basic username/password pair is checked against a
static credential table (the built-in `admin`/`admin123` pair maps to a
`data_admin` role at `SECRET` level).  Failure is the exceptional
`AuthenticationError` outcome, embedded here as `Except.error`. -/

/-- Modelled from the spec: a managed credential record, looked up by
secret value during authentication. -/
structure Token where
  token_id : String
  secret_value : String
  user_id : String
  roles : List String
  permissions : List String
  security_level : SecurityLevel
deriving DecidableEq, Repr

/-- Modelled from the spec: the credential map `{type, ...}`; the fields
irrelevant to a given type are simply unused. -/
structure Credentials where
  ctype : String
  token : String
  username : String
  password : String
deriving DecidableEq, Repr

/-- Find a managed token by its secret value. -/
def findToken : List Token → String → Option Token
  | [], _ => none
  | t :: ts, s => if t.secret_value = s then some t else findToken ts s

/-- Lookup in the static (non-managed) token table. -/
def lookupCtx : List (String × AuthContext) → String → Option AuthContext
  | [], _ => none
  | e :: es, s => if e.1 = s then some e.2 else lookupCtx es s

/-- Lookup in the static basic-auth credential table. -/
def lookupBasic : List (String × String × AuthContext) → String → String → Option AuthContext
  | [], _, _ => none
  | u :: us, n, p => if u.1 = n ∧ u.2.1 = p then some u.2.2 else lookupBasic us n p

/-- The built-in static token table the test suite exercises:
`valid_token_123` maps to a `data_analyst` at INTERNAL level. -/
def builtinTokens : List (String × AuthContext) :=
  [("valid_token_123",
    ⟨"test_user", ["data_analyst"], ["read_data"], "token_session", SecurityLevel.internal⟩)]

/-- The built-in static basic-auth table: `admin`/`admin123` maps to a
`data_admin` at SECRET level. -/
def builtinBasicUsers : List (String × String × AuthContext) :=
  [("admin", "admin123",
    ⟨"admin_user", ["data_admin"], ["admin"], "basic_session", SecurityLevel.secret⟩)]

/-- Modelled from the spec: the authentication decision.  A token is
looked up first in the managed store, then in the static table; a basic
pair is checked against the static credential table; anything else is an
unsupported type.  Every failure is an `AuthenticationError`
(`Except.error`). -/
def authenticate (store : List Token) (c : Credentials) : Except String AuthContext :=
  if c.ctype = "token" then
    match findToken store c.token with
    | some t => Except.ok ⟨t.user_id, t.roles, t.permissions, c.token, t.security_level⟩
    | none =>
      match lookupCtx builtinTokens c.token with
      | some a => Except.ok a
      | none => Except.error "authentication failed: invalid token"
  else if c.ctype = "basic" then
    match lookupBasic builtinBasicUsers c.username c.password with
    | some a => Except.ok a
    | none => Except.error "authentication failed: invalid username or password"
  else Except.error ("unsupported authentication type: " ++ c.ctype)

/-! ## Session cache

Modelled from the spec (§4.6) and `test/utils/test_db.py`: the
`DorisSessionCache` holds a policy-gated map from session identifier to a
live connection; the reserved identifiers `"system"` and `"query"` are
cached when `cache_system_session` is enabled (default true), everything
else only when `cache_user_session` is enabled (default false); `save`
silently declines to cache a rejected session id. -/

/-- Modelled from the spec: a live session-bound connection handle
(identity is carried by `connId` so that "the same connection object" is
expressible). -/
structure DorisConnection where
  session_id : String
  connId : Nat
deriving DecidableEq, Repr

/-- The session cache state: the two policy flags and the cached map. -/
structure DorisSessionCache where
  cache_system_session : Bool
  cache_user_session : Bool
  cached : List (String × DorisConnection)
deriving DecidableEq, Repr

/-- A freshly initialized cache: `cache_system_session=true`,
`cache_user_session=false`, nothing cached. -/
def newSessionCache : DorisSessionCache := ⟨true, false, []⟩

/-- Modelled from the spec: the policy gate `_should_cache(session_id)`. -/
def shouldCacheSession (c : DorisSessionCache) (sid : String) : Bool :=
  if sid = "system" ∨ sid = "query" then c.cache_system_session
  else c.cache_user_session

/-- Association-list lookup for the cached map. -/
def lookupConn : List (String × DorisConnection) → String → Option DorisConnection
  | [], _ => none
  | e :: es, sid => if e.1 = sid then some e.2 else lookupConn es sid

/-- Drop every entry for a session id (the cache never owns more than one
connection per session id). -/
def removeKey : List (String × DorisConnection) → String → List (String × DorisConnection)
  | [], _ => []
  | e :: es, sid => if e.1 = sid then removeKey es sid else e :: removeKey es sid

/-- Modelled from the spec: `save(conn)` caches the connection under its
session id when the policy gate accepts it and is a silent no-op
otherwise. -/
def cacheSave (c : DorisSessionCache) (conn : DorisConnection) : DorisSessionCache :=
  if shouldCacheSession c conn.session_id = true then
    ⟨c.cache_system_session, c.cache_user_session,
      (conn.session_id, conn) :: removeKey c.cached conn.session_id⟩
  else c

/-- Modelled from the spec: `get(session_id)` returns the cached
connection or null (a miss is not an error). -/
def cacheGet (c : DorisSessionCache) (sid : String) : Option DorisConnection :=
  lookupConn c.cached sid

/-! ## Helper lemmas -/

theorem startsWithChars_self_append (p r : List Char) :
    startsWithChars p (p ++ r) = true := by
  induction p with
  | nil => rfl
  | cons c cs ih => simp [startsWithChars, ih]

theorem isSubstring_self_append (p r : List Char) :
    isSubstring p (p ++ r) = true := by
  cases p with
  | nil => cases r <;> simp [isSubstring, startsWithChars]
  | cons c cs =>
    have h := startsWithChars_self_append (c :: cs) r
    rw [List.cons_append] at h
    simp [isSubstring, h]

theorem isSubstring_append_left (p a b : List Char) (h : isSubstring p b = true) :
    isSubstring p (a ++ b) = true := by
  induction a with
  | nil => simpa using h
  | cons c cs ih => simp [isSubstring, ih]

theorem maskSpan_length (cs : List Char) (a b : Nat) (mc : Char) :
    (maskSpan cs a b mc).length = cs.length := by
  by_cases h : cs.length ≤ a + b
  · simp [maskSpan, h]
  · have ha : a ≤ cs.length := by omega
    simp [maskSpan, h, List.length_take, List.length_drop, Nat.min_eq_left ha]
    omega

theorem maskEmail_length (cs : List Char) (mc : Char) :
    (maskEmail cs mc).length = cs.length := by
  unfold maskEmail
  rw [List.length_append, maskSpan_length]
  conv_rhs => rw [← List.takeWhile_append_dropWhile (p := fun c => decide (c ≠ '@')) (l := cs)]
  rw [List.length_append]

theorem maskName_length (cs : List Char) (mc : Char) :
    (maskName cs mc).length = cs.length := by
  match cs with
  | [] => rfl
  | [a] => rfl
  | [a, b] => rfl
  | a :: b :: c :: rest => exact maskSpan_length (a :: b :: c :: rest) 1 1 mc

theorem maskPartialSpan_length (cs : List Char) (mc : Char) (pct : Nat) :
    (maskPartialSpan cs mc pct).length = cs.length := by
  unfold maskPartialSpan
  have hm : min cs.length ((cs.length * pct + 50) / 100) ≤ cs.length :=
    Nat.min_le_left _ _
  simp only [List.length_append, List.length_take, List.length_replicate,
    List.length_drop]
  omega

theorem applyAlgorithm_length (alg : MaskAlgorithm) (p : MaskParams) (s : String) :
    (applyAlgorithm alg p s).length = s.length := by
  cases alg
  case phone => exact maskSpan_length s.data p.keepStart p.keepEnd p.maskChar
  case id_card => exact maskSpan_length s.data p.keepStart p.keepEnd p.maskChar
  case email => exact maskEmail_length s.data p.maskChar
  case name => exact maskName_length s.data p.maskChar
  case partialSpan => exact maskPartialSpan_length s.data p.maskChar p.maskRatioPct

theorem applyOne_null (rule : MaskingRule) (ctx : AuthContext) (f : String) :
    applyOne rule ctx f FieldValue.null = FieldValue.null := rfl

theorem applyRulesToField_null (rules : List MaskingRule) (ctx : AuthContext) (f : String) :
    applyRulesToField rules ctx f FieldValue.null = FieldValue.null := by
  induction rules with
  | nil => rfl
  | cons r rs ih =>
    show applyRulesToField rs ctx f (applyOne r ctx f FieldValue.null) = FieldValue.null
    rw [applyOne_null]
    exact ih

theorem shouldApplyRule_admin (rule : MaskingRule) (ctx : AuthContext)
    (h : hasAdminOverride ctx = true) : shouldApplyRule rule ctx = false := by
  simp [shouldApplyRule, h]

theorem applyOne_admin (rule : MaskingRule) (ctx : AuthContext) (f : String)
    (v : FieldValue) (h : hasAdminOverride ctx = true) :
    applyOne rule ctx f v = v := by
  cases v with
  | null => rfl
  | num n => rfl
  | str s => simp [applyOne, shouldApplyRule_admin rule ctx h]

theorem applyRulesToField_admin (rules : List MaskingRule) (ctx : AuthContext)
    (f : String) (v : FieldValue) (h : hasAdminOverride ctx = true) :
    applyRulesToField rules ctx f v = v := by
  induction rules generalizing v with
  | nil => rfl
  | cons r rs ih =>
    show applyRulesToField rs ctx f (applyOne r ctx f v) = v
    rw [applyOne_admin r ctx f v h]
    exact ih v

theorem process_admin (rules : List MaskingRule) (ctx : AuthContext)
    (rows : List Row) (h : hasAdminOverride ctx = true) :
    process rules ctx rows = rows := by
  unfold process
  have hrow : ∀ row : Row, row.map
      (fun kv => (kv.1, applyRulesToField rules ctx kv.1 kv.2)) = row := by
    intro row
    induction row with
    | nil => rfl
    | cons kv kvs ih =>
      simp [List.map_cons, applyRulesToField_admin rules ctx kv.1 kv.2 h, ih]
  induction rows with
  | nil => rfl
  | cons row rest ih => simp [List.map_cons, hrow row, ih]

/-- A configured phone-masking rule at the INTERNAL ceiling, as built in
`test_should_apply_rule_logic`. -/
def phoneRuleInternal : MaskingRule :=
  ⟨".*phone.*", MaskAlgorithm.phone, ⟨'*', 3, 4, 50⟩, SecurityLevel.internal⟩

/-! ## Claim theorems -/

/-- C1: for every `AuthContext` carrying the admin override (role
`data_admin` or permission `admin`), `check_permission` returns true for
every resource URI and every action, and `process` returns every row list
unchanged (no masking rule is applied). -/
theorem admin_override_allows_all (cfg : SecurityConfig) (ctx : AuthContext)
    (h : hasAdminOverride ctx = true) :
    (∀ uri action, check_permission cfg ctx uri action = true) ∧
    (∀ (rules : List MaskingRule) (rows : List Row), process rules ctx rows = rows) := by
  constructor
  · intro uri action
    simp [check_permission, h]
  · intro rules rows
    exact process_admin rules ctx rows h

/-- C1 witness: the admin context of the test suite is allowed to write
any table, and masking leaves its data untouched. -/
theorem admin_override_allows_all_witness :
    check_permission defaultSecurityConfig adminCtx "/api/table/any_table" "write" = true ∧
    process [phoneRuleInternal] adminCtx [[("phone", FieldValue.str "13812345678")]]
      = [[("phone", FieldValue.str "13812345678")]] := by
  have h := admin_override_allows_all defaultSecurityConfig adminCtx (by decide)
  exact ⟨h.1 "/api/table/any_table" "write", h.2 [phoneRuleInternal] _⟩

/-- C2: without the admin override, a clearance ordinal strictly below
the resource level ordinal denies `read`; otherwise permission
`read_data` grants `read`, `write` is denied, and any other action is
denied by default. -/
theorem clearance_and_role_rules (cfg : SecurityConfig) (ctx : AuthContext)
    (uri : String) (h : hasAdminOverride ctx = false) :
    (ctx.security_level.ordinal
        < (resourceSecurityLevel cfg (parseResourceUri uri)).ordinal →
      check_permission cfg ctx uri "read" = false) ∧
    (¬ ctx.security_level.ordinal
        < (resourceSecurityLevel cfg (parseResourceUri uri)).ordinal →
      ("read_data" ∈ ctx.permissions → check_permission cfg ctx uri "read" = true) ∧
      check_permission cfg ctx uri "write" = false ∧
      (∀ action, action ≠ "read" → check_permission cfg ctx uri action = false)) := by
  constructor
  · intro hlt
    simp [check_permission, h, hlt]
  · intro hge
    refine ⟨fun hperm => ?_, ?_, fun action ha => ?_⟩
    · simp [check_permission, h, hge, hperm]
    · simp [check_permission, h, hge]
    · simp [check_permission, h, hge, ha]

/-- C2 witness: a PUBLIC-level analyst is denied `read` on the
CONFIDENTIAL resource `user_info`; the INTERNAL analyst reads an unmapped
table but cannot write or run an unknown action on it. -/
theorem clearance_and_role_rules_witness :
    check_permission defaultSecurityConfig
      ⟨"analyst1", ["data_analyst"], ["read_data"], "session_123", SecurityLevel.public⟩
      "/api/table/user_info" "read" = false ∧
    check_permission defaultSecurityConfig analystCtx "/api/table/some_table" "read" = true ∧
    check_permission defaultSecurityConfig analystCtx "/api/table/some_table" "write" = false ∧
    check_permission defaultSecurityConfig analystCtx "/api/table/some_table" "grant" = false := by
  refine ⟨?_, ?_, ?_, ?_⟩
  · exact (clearance_and_role_rules defaultSecurityConfig _ _ (by decide)).1 (by decide)
  · exact ((clearance_and_role_rules defaultSecurityConfig analystCtx _ (by decide)).2
      (by decide)).1 (by decide)
  · exact ((clearance_and_role_rules defaultSecurityConfig analystCtx _ (by decide)).2
      (by decide)).2.1
  · exact ((clearance_and_role_rules defaultSecurityConfig analystCtx _ (by decide)).2
      (by decide)).2.2 "grant" (by decide)

/-- C6: `_should_apply_rule(rule, ctx)` is false whenever the context
carries the admin override, and otherwise holds exactly when the caller's
clearance ordinal is at or below the rule's ceiling ordinal. -/
theorem should_apply_rule_ceiling (rule : MaskingRule) (ctx : AuthContext) :
    (hasAdminOverride ctx = true → shouldApplyRule rule ctx = false) ∧
    (hasAdminOverride ctx = false →
      (shouldApplyRule rule ctx = true ↔
        ctx.security_level.ordinal ≤ rule.security_level.ordinal)) := by
  refine ⟨fun h => shouldApplyRule_admin rule ctx h, fun h => ?_⟩
  simp [shouldApplyRule, h]

/-- C6 witness: the INTERNAL phone rule applies to the INTERNAL analyst
and not to the admin, exactly as `test_should_apply_rule_logic` asserts. -/
theorem should_apply_rule_ceiling_witness :
    shouldApplyRule phoneRuleInternal analystCtx = true ∧
    shouldApplyRule phoneRuleInternal adminCtx = false := by
  constructor
  · exact ((should_apply_rule_ceiling phoneRuleInternal analystCtx).2 (by decide)).mpr
      (by decide)
  · exact (should_apply_rule_ceiling phoneRuleInternal adminCtx).1 (by decide)

/-- C7: every masking algorithm preserves the length of its input, a null
field value passes through the rule pipeline unchanged, and `process` on
an empty row list returns an empty list. -/
theorem masking_preserves_shape :
    (∀ (alg : MaskAlgorithm) (p : MaskParams) (s : String),
      (applyAlgorithm alg p s).length = s.length) ∧
    (∀ (rules : List MaskingRule) (ctx : AuthContext) (f : String),
      applyRulesToField rules ctx f FieldValue.null = FieldValue.null) ∧
    (∀ (rules : List MaskingRule) (ctx : AuthContext),
      process rules ctx [] = []) :=
  ⟨applyAlgorithm_length, applyRulesToField_null, fun _ _ => rfl⟩

theorem resultMentions_mk (v : Bool) (m : List Char) (b : List String)
    (rl : String) (pat : String) :
    resultMentions ⟨v, some (String.mk m), b, rl⟩ pat = isSubstring pat.data m := rfl

/-- C3: every SQL statement one of whose statement-starting keywords
case-insensitively matches the default blocklist is rejected: `is_valid`
is false, the matched keyword is in the non-empty `blocked_operations`,
and the error message mentions "blocked operations"; in particular
`DROP TABLE users` is rejected with `DROP` among the blocked
operations. -/
theorem blocklist_rejection (sql : String) (ctx : AuthContext) (kw : String)
    (h1 : kw ∈ statementKeywords sql.data)
    (h2 : kw ∈ defaultSecurityConfig.blockedKeywords) :
    ((validate defaultSecurityConfig sql ctx).is_valid = false ∧
     kw ∈ (validate defaultSecurityConfig sql ctx).blocked_operations ∧
     (validate defaultSecurityConfig sql ctx).blocked_operations ≠ [] ∧
     resultMentions (validate defaultSecurityConfig sql ctx) "blocked operations" = true) ∧
    ((validate defaultSecurityConfig "DROP TABLE users" analystCtx).is_valid = false ∧
     "DROP" ∈ (validate defaultSecurityConfig "DROP TABLE users" analystCtx).blocked_operations) := by
  have hmem : kw ∈ blockedOps defaultSecurityConfig sql.data := by
    unfold blockedOps
    rw [List.mem_filter]
    exact ⟨h1, by simpa using h2⟩
  have hne : blockedOps defaultSecurityConfig sql.data ≠ [] := List.ne_nil_of_mem hmem
  have hcond : ¬ (blockedOps defaultSecurityConfig sql.data = []
      ∧ injectionFound sql.data = false ∧ hasCommentMarker sql.data = false
      ∧ accessViolations defaultSecurityConfig ctx sql.data = []) := by
    intro hc
    exact hne hc.1
  refine ⟨?_, by decide⟩
  unfold validate
  rw [if_neg hcond]
  refine ⟨rfl, hmem, hne, ?_⟩
  rw [resultMentions_mk]
  unfold msgChars
  rw [if_neg hne]
  simp only [List.append_assoc]
  exact isSubstring_self_append _ _

/-- C3 witness: instantiating the blocklist theorem on the test input
`DROP TABLE users` with the analyst context. -/
theorem blocklist_rejection_witness :
    (validate defaultSecurityConfig "DROP TABLE users" analystCtx).is_valid = false ∧
    "DROP" ∈ (validate defaultSecurityConfig "DROP TABLE users" analystCtx).blocked_operations ∧
    resultMentions (validate defaultSecurityConfig "DROP TABLE users" analystCtx)
      "blocked operations" = true := by
  have h := blocklist_rejection "DROP TABLE users" analystCtx "DROP" (by decide) (by decide)
  exact ⟨h.1.1, h.1.2.1, h.1.2.2.2⟩

/-- C4: every statement containing an injection shape — stacked
statements, `UNION [ALL] SELECT`, an always-true tautology, or a comment
marker — is rejected with a risk level in {medium, high} and an error
message naming the pattern; in particular the stacked
`SELECT ...; DROP TABLE users;` input is rejected at risk level high
with "injection" in its message. -/
theorem injection_shape_rejection (sql : String) (ctx : AuthContext)
    (h : injectionFound sql.data = true ∨ hasCommentMarker sql.data = true) :
    ((validate defaultSecurityConfig sql ctx).is_valid = false ∧
     ((validate defaultSecurityConfig sql ctx).risk_level = "medium" ∨
      (validate defaultSecurityConfig sql ctx).risk_level = "high") ∧
     (injectionFound sql.data = true →
       resultMentions (validate defaultSecurityConfig sql ctx) "injection" = true) ∧
     (hasCommentMarker sql.data = true →
       resultMentions (validate defaultSecurityConfig sql ctx) "comment" = true)) ∧
    ((validate defaultSecurityConfig
        "SELECT * FROM users WHERE id=1; DROP TABLE users;" analystCtx).is_valid = false ∧
     (validate defaultSecurityConfig
        "SELECT * FROM users WHERE id=1; DROP TABLE users;" analystCtx).risk_level = "high" ∧
     resultMentions (validate defaultSecurityConfig
        "SELECT * FROM users WHERE id=1; DROP TABLE users;" analystCtx) "injection" = true) := by
  have hcond : ¬ (blockedOps defaultSecurityConfig sql.data = []
      ∧ injectionFound sql.data = false ∧ hasCommentMarker sql.data = false
      ∧ accessViolations defaultSecurityConfig ctx sql.data = []) := by
    intro hc
    rcases h with h | h
    · exact absurd (h.symm.trans hc.2.1) (by decide)
    · exact absurd (h.symm.trans hc.2.2.1) (by decide)
  refine ⟨?_, by decide⟩
  unfold validate
  rw [if_neg hcond]
  refine ⟨rfl, ?_, ?_, ?_⟩
  · show computedRisk sql.data = "medium" ∨ computedRisk sql.data = "high"
    by_cases h1 : hasStackedStatement sql.data = true
    · simp [computedRisk, h1]
    · by_cases h2 : (hasUnionSelect ((sqlTokens sql.data).map upStr)
          || hasTautology ((sqlTokens sql.data).map upStr)
          || hasCommentMarker sql.data) = true
      · simp [computedRisk, h1, h2]
      · simp [computedRisk, h1, h2]
  · intro hinj
    rw [resultMentions_mk]
    unfold msgChars
    rw [if_pos hinj]
    simp only [List.append_assoc]
    exact isSubstring_append_left _ _ _ (isSubstring_self_append _ _)
  · intro hcom
    rw [resultMentions_mk]
    unfold msgChars
    rw [if_pos hcom]
    simp only [List.append_assoc]
    exact isSubstring_append_left _ _ _
      (isSubstring_append_left _ _ _ (isSubstring_self_append _ _))

/-- C4 witness: instantiating the injection-shape theorem on the
test suite's stacked, union, tautology and comment inputs. -/
theorem injection_shape_rejection_witness :
    ((validate defaultSecurityConfig
        "SELECT * FROM users WHERE id=1; DROP TABLE users;" analystCtx).risk_level = "high") ∧
    ((validate defaultSecurityConfig
        "SELECT name FROM users UNION SELECT password FROM admin_users" analystCtx).is_valid
      = false) ∧
    ((validate defaultSecurityConfig
        "SELECT * FROM users WHERE id = 1 OR 1=1" analystCtx).is_valid = false) ∧
    resultMentions (validate defaultSecurityConfig
        "SELECT * FROM users WHERE id = 1 -- AND password = 'secret'" analystCtx)
      "comment" = true := by
  refine ⟨?_, ?_, ?_, ?_⟩
  · exact (injection_shape_rejection
      "SELECT * FROM users WHERE id=1; DROP TABLE users;" analystCtx
      (Or.inl (by decide))).2.2.1
  · exact (injection_shape_rejection
      "SELECT name FROM users UNION SELECT password FROM admin_users" analystCtx
      (Or.inl (by decide))).1.1
  · exact (injection_shape_rejection
      "SELECT * FROM users WHERE id = 1 OR 1=1" analystCtx (Or.inl (by decide))).1.1
  · exact (injection_shape_rejection
      "SELECT * FROM users WHERE id = 1 -- AND password = 'secret'" analystCtx
      (Or.inr (by decide))).1.2.2.2 (by decide)

/-- C5: for every input string (malformed SQL included) and every
context, the validator boundary returns `Except.ok` of a
`ValidationResult`; no internal tokenizer failure propagates past it. -/
theorem validator_never_raises (cfg : SecurityConfig) (sql : String) (ctx : AuthContext) :
    validateE cfg sql ctx = Except.ok (validate cfg sql ctx) := by
  unfold validateE
  by_cases h : parensBalanced sql.data = true
  · simp [tokenizeE, h]
  · simp [tokenizeE, h]

/-- C8: the masking algorithms compute the spec's reference outputs on
its example inputs. -/
theorem masking_reference_outputs :
    applyAlgorithm MaskAlgorithm.phone ⟨'*', 3, 4, 50⟩ "13812345678" = "138****5678" ∧
    applyAlgorithm MaskAlgorithm.email ⟨'*', 0, 0, 50⟩ "zhangsan@example.com"
      = "z******n@example.com" ∧
    applyAlgorithm MaskAlgorithm.id_card ⟨'*', 6, 4, 50⟩ "110101199001011234"
      = "110101********1234" ∧
    applyAlgorithm MaskAlgorithm.name ⟨'*', 0, 0, 50⟩ "张三" = "张*" ∧
    applyAlgorithm MaskAlgorithm.name ⟨'*', 0, 0, 50⟩ "李小明" = "李*明" := by
  refine ⟨?_, ?_, ?_, ?_, ?_⟩ <;> decide

/-- C9: `authenticate` fails for every unsupported credential type, for
every token absent from both the managed store and the built-in table,
and for every basic pair missing from the static credential table; the
built-in `admin`/`admin123` basic pair yields a `data_admin` context at
SECRET level. -/
theorem authenticate_contract :
    (∀ (store : List Token) (c : Credentials), c.ctype ≠ "token" → c.ctype ≠ "basic" →
      ∃ e, authenticate store c = Except.error e) ∧
    (∀ (store : List Token) (c : Credentials), c.ctype = "token" →
      findToken store c.token = none → lookupCtx builtinTokens c.token = none →
      ∃ e, authenticate store c = Except.error e) ∧
    (∀ (store : List Token) (c : Credentials), c.ctype = "basic" →
      lookupBasic builtinBasicUsers c.username c.password = none →
      ∃ e, authenticate store c = Except.error e) ∧
    (∀ store : List Token,
      ∃ a, authenticate store ⟨"basic", "", "admin", "admin123"⟩ = Except.ok a ∧
        "data_admin" ∈ a.roles ∧ a.security_level = SecurityLevel.secret) := by
  refine ⟨?_, ?_, ?_, ?_⟩
  · intro store c h1 h2
    refine ⟨"unsupported authentication type: " ++ c.ctype, ?_⟩
    unfold authenticate
    rw [if_neg h1, if_neg h2]
  · intro store c h1 h2 h3
    refine ⟨"authentication failed: invalid token", ?_⟩
    unfold authenticate
    rw [if_pos h1, h2, h3]
  · intro store c h1 h2
    refine ⟨"authentication failed: invalid username or password", ?_⟩
    unfold authenticate
    have h1' : c.ctype ≠ "token" := by
      rw [h1]
      decide
    rw [if_neg h1', if_pos h1, h2]
  · intro store
    refine ⟨⟨"admin_user", ["data_admin"], ["admin"], "basic_session", SecurityLevel.secret⟩,
      ?_, by decide, rfl⟩
    unfold authenticate
    rw [if_neg (by decide : ¬ ("basic" : String) = "token"),
      if_pos (rfl : ("basic" : String) = "basic")]
    rfl

/-- C9 witness: instantiating the authentication contract on the test
suite's concrete credentials (an `oauth` type, an unknown token, a wrong
password, and the built-in admin pair). -/
theorem authenticate_contract_witness :
    (∃ e, authenticate [] ⟨"oauth", "oauth_token", "", ""⟩ = Except.error e) ∧
    (∃ e, authenticate [] ⟨"token", "invalid_token", "", ""⟩ = Except.error e) ∧
    (∃ e, authenticate [] ⟨"basic", "", "admin", "wrong_password"⟩ = Except.error e) ∧
    (∃ a, authenticate [] ⟨"basic", "", "admin", "admin123"⟩ = Except.ok a ∧
      "data_admin" ∈ a.roles ∧ a.security_level = SecurityLevel.secret) := by
  refine ⟨?_, ?_, ?_, authenticate_contract.2.2.2 []⟩
  · exact authenticate_contract.1 [] _ (by decide) (by decide)
  · exact authenticate_contract.2.1 [] _ rfl rfl (by decide)
  · exact authenticate_contract.2.2.1 [] _ rfl (by decide)

/-- C10: under the default policy (`cache_system_session=true`,
`cache_user_session=false`) save-then-get round-trips the reserved
session identifiers `system` and `query`; for every other identifier
`save` is a silent no-op and `get` on a fresh cache returns null, and
once `cache_user_session` is enabled the same round-trip returns the
connection. -/
theorem session_cache_policy (conn : DorisConnection) :
    ((conn.session_id = "system" ∨ conn.session_id = "query") →
      ∀ c : DorisSessionCache, c.cache_system_session = true →
        cacheGet (cacheSave c conn) conn.session_id = some conn) ∧
    (conn.session_id ≠ "system" → conn.session_id ≠ "query" →
      (∀ c : DorisSessionCache, c.cache_user_session = false → cacheSave c conn = c) ∧
      cacheGet (cacheSave newSessionCache conn) conn.session_id = none ∧
      (∀ c : DorisSessionCache, c.cache_user_session = true →
        cacheGet (cacheSave c conn) conn.session_id = some conn)) := by
  constructor
  · intro hres c hsys
    have hsc : shouldCacheSession c conn.session_id = true := by
      unfold shouldCacheSession
      rw [if_pos hres]
      exact hsys
    simp [cacheSave, hsc, cacheGet, lookupConn]
  · intro h1 h2
    have hres : ¬ (conn.session_id = "system" ∨ conn.session_id = "query") := by
      intro hc
      rcases hc with hc | hc
      · exact h1 hc
      · exact h2 hc
    have hnoop : ∀ c : DorisSessionCache, c.cache_user_session = false →
        cacheSave c conn = c := by
      intro c huser
      have hsc : shouldCacheSession c conn.session_id = false := by
        unfold shouldCacheSession
        rw [if_neg hres]
        exact huser
      simp [cacheSave, hsc]
    refine ⟨hnoop, ?_, ?_⟩
    · rw [hnoop newSessionCache rfl]
      rfl
    · intro c huser
      have hsc : shouldCacheSession c conn.session_id = true := by
        unfold shouldCacheSession
        rw [if_neg hres]
        exact huser
      simp [cacheSave, hsc, cacheGet, lookupConn]

/-- C10 witness: instantiating the cache policy on the test suite's
`query` and `user-test-session-id` sessions, with the defaults and with
`cache_user_session` enabled. -/
theorem session_cache_policy_witness :
    cacheGet (cacheSave newSessionCache ⟨"query", 1⟩) "query" = some ⟨"query", 1⟩ ∧
    cacheSave newSessionCache ⟨"user-test-session-id", 2⟩ = newSessionCache ∧
    cacheGet (cacheSave newSessionCache ⟨"user-test-session-id", 2⟩)
      "user-test-session-id" = none ∧
    cacheGet (cacheSave ⟨true, true, []⟩ ⟨"user-test-session-id", 2⟩)
      "user-test-session-id" = some ⟨"user-test-session-id", 2⟩ := by
  refine ⟨?_, ?_, ?_, ?_⟩
  · exact (session_cache_policy ⟨"query", 1⟩).1 (Or.inr rfl) newSessionCache rfl
  · exact ((session_cache_policy ⟨"user-test-session-id", 2⟩).2 (by decide) (by decide)).1
      newSessionCache rfl
  · exact ((session_cache_policy ⟨"user-test-session-id", 2⟩).2 (by decide) (by decide)).2.1
  · exact ((session_cache_policy ⟨"user-test-session-id", 2⟩).2 (by decide) (by decide)).2.2
      ⟨true, true, []⟩ rfl

end DorisMcp
